import Mathlib

/-!
Verification of the GameMNA core logic module (`deal_analyzer.py`).

The module `DealAnalyzer` exposes two pure functions:
 * `calculate_risk_score (num_bidders, due_diligence_quality, cultural_fit)`
   returning a record with a clamped score, a risk level, a recommendation
   text and a list of driver strings;
 * `recommend_strategy (regulatory_risk, competition_level)` returning one of
   four fixed advisory strings or a fixed input-error string.

Numbers are embedded as exact rationals (the Python floats involved are the
UI-supplied values and the literal thresholds 0.12, 0.3, 0.5, 0.7, which are
compared, added in multiples of 5, and clamped; no float-specific behaviour
is exercised by the properties below).  Each `if/elif` block of the Python
source is embedded as a Lean `if` chain with the same conditions in the same
order.  Both embedded functions are total computable functions, matching the
absence of any exception path in the source.
-/

namespace DealAnalyzer

/-- Calibration constant `self.RISK_THRESHOLD_HIGH` from `__init__`. -/
def RISK_THRESHOLD_HIGH : ℚ := 75

/-- Calibration constant `self.RISK_THRESHOLD_MODERATE` from `__init__`. -/
def RISK_THRESHOLD_MODERATE : ℚ := 40

/-- Calibration constant `self.CULTURE_CRITICAL_LIMIT` from `__init__`. -/
def CULTURE_CRITICAL_LIMIT : ℚ := 12/100

/-- The report dictionary returned by `calculate_risk_score`. -/
structure RiskReport where
  score : ℚ
  risk_level : String
  recommendation : String
  drivers : List String

/-- Auction-dynamics block of `calculate_risk_score` (source lines 23-31):
the score increment and the driver strings it appends. -/
def auctionFactor (num_bidders : ℚ) : ℚ × List String :=
  if num_bidders > 6 then
    (50, ["Critical Risk: Extreme Competition (>6 Bidders) guarantees Winner\x27s Curse."])
  else if num_bidders > 4 then
    (40, ["High Risk: High Competition increases overpayment probability >90%."])
  else if num_bidders ≥ 2 then
    (20, ["Moderate Risk: Standard Competitive Pressure."])
  else (0, [])

/-- Information-asymmetry block of `calculate_risk_score` (source lines 35-40). -/
def infoFactor (due_diligence_quality : ℚ) : ℚ × List String :=
  if due_diligence_quality < 3/10 then
    (30, ["Critical Risk: Opaque Information (Blind Bidding)."])
  else if due_diligence_quality < 7/10 then
    (15, ["Moderate Risk: Incomplete Information signals."])
  else (0, [])

/-- The f-string appended when `cultural_fit < self.CULTURE_CRITICAL_LIMIT`
(source line 46), interpolating the actual fit value and the threshold
constant. -/
def cultureCriticalDriver (cultural_fit : ℚ) : String :=
  "Critical Risk: Cultural Fit " ++ toString cultural_fit ++
    " is below the viability threshold (" ++ toString CULTURE_CRITICAL_LIMIT ++ ")."

/-- Cultural-integration block of `calculate_risk_score` (source lines 44-49). -/
def cultureFactor (cultural_fit : ℚ) : ℚ × List String :=
  if cultural_fit < CULTURE_CRITICAL_LIMIT then
    (50, [cultureCriticalDriver cultural_fit])
  else if cultural_fit < 1/2 then
    (20, ["High Risk: Poor Cultural Alignment suggests synergy leakage."])
  else (0, [])

/-- Recommendation text of the `final_score >= RISK_THRESHOLD_HIGH` branch. -/
def recWalkAway : String :=
  "WALK AWAY. Expected Value is negative due to Winner\x27s Curse or Integration Failure."

/-- Recommendation text of the `final_score >= RISK_THRESHOLD_MODERATE` branch. -/
def recCaution : String :=
  "PROCEED WITH CAUTION. Require structural protections (e.g., lower bid, earn-outs)."

/-- Recommendation text of the final `else` branch. -/
def recProceed : String :=
  "PROCEED. Deal fundamentals are sound within game-theoretic bounds."

/-- The method `DealAnalyzer.calculate_risk_score` (source lines 13-70): the
three factor blocks accumulate into `score` and `reasons` in order, the score
is capped at 100, and the risk level and recommendation are derived from the
capped score by the two calibration thresholds. -/
def calculate_risk_score (num_bidders due_diligence_quality cultural_fit : ℚ) :
    RiskReport :=
  let a := auctionFactor num_bidders
  let i := infoFactor due_diligence_quality
  let c := cultureFactor cultural_fit
  let score := a.1 + i.1 + c.1
  let reasons := a.2 ++ i.2 ++ c.2
  let final_score := min score 100
  if final_score ≥ RISK_THRESHOLD_HIGH then
    ⟨final_score, "CRITICAL", recWalkAway, reasons⟩
  else if final_score ≥ RISK_THRESHOLD_MODERATE then
    ⟨final_score, "HIGH", recCaution, reasons⟩
  else
    ⟨final_score, "LOW", recProceed, reasons⟩

/-- Advisory string for regulatory_risk = High, competition_level = High
(source lines 78-83; the Python adjacent string literals are concatenated). -/
def strategyPreemptiveRemedies : String :=
  "STRATEGY: Preemptive Remedies (Subgame Perfect Equilibrium).\n" ++
  "Logic: High competition + High Regulation creates a \x27War of Attrition\x27.\n" ++
  "Action: Offer divestitures (e.g., licensing) immediately to signal " ++
  "cooperation and deter regulatory veto, mimicking Microsoft\x27s 2023 strategy."

/-- Advisory string for regulatory_risk = High, any other competition_level
(source lines 85-89). -/
def strategyNegotiatedSettlement : String :=
  "STRATEGY: Negotiated Settlement.\n" ++
  "Logic: With low competition, you are in a bilateral monopoly with the regulator.\n" ++
  "Action: Do not bid aggressively. Focus on \x27tit-for-tat\x27 negotiation to clear hurdles."

/-- Advisory string for regulatory_risk = Low, competition_level = High
(source lines 93-98). -/
def strategyAggressiveSealedBid : String :=
  "STRATEGY: Aggressive Sealed Bid (The \x27Bulldozer\x27).\n" ++
  "Logic: Classic Auction Theory applies. Regulatory veto is unlikely.\n" ++
  "Action: Bid high early (Shock & Awe) to signal strength and force rivals " ++
  "to fold, but ensure bid < (True Value - Integration Cost)."

/-- Advisory string for regulatory_risk = Low, any other competition_level
(source lines 100-104). -/
def strategyLowBall : String :=
  "STRATEGY: Low-Ball / Opportunistic.\n" ++
  "Logic: You have leverage. No external threats exist.\n" ++
  "Action: Bid near the target\x27s reservation price to maximize surplus."

/-- Fallback string of `recommend_strategy` (source line 106). -/
def inputErrorMsg : String := "Input Error: Define risks correctly."

/-- The method `DealAnalyzer.recommend_strategy` (source lines 72-106):
regulatory_risk is tested first against the exact token High, then Low;
inside each branch competition_level is tested against the exact token High,
any other value falling to the `else` arm; any other regulatory_risk value
reaches the fallback return. -/
def recommend_strategy (regulatory_risk competition_level : String) : String :=
  if regulatory_risk = "High" then
    if competition_level = "High" then strategyPreemptiveRemedies
    else strategyNegotiatedSettlement
  else if regulatory_risk = "Low" then
    if competition_level = "High" then strategyAggressiveSealedBid
    else strategyLowBall
  else inputErrorMsg

/-- Each auction contribution is non-negative. -/
lemma auctionFactor_nonneg (b : ℚ) : 0 ≤ (auctionFactor b).1 := by
  unfold auctionFactor; split_ifs <;> norm_num

/-- Each information contribution is non-negative. -/
lemma infoFactor_nonneg (d : ℚ) : 0 ≤ (infoFactor d).1 := by
  unfold infoFactor; split_ifs <;> norm_num

/-- Each cultural contribution is non-negative. -/
lemma cultureFactor_nonneg (c : ℚ) : 0 ≤ (cultureFactor c).1 := by
  unfold cultureFactor; split_ifs <;> norm_num

/-- The auction contribution is at most 50 per appended driver. -/
lemma auctionFactor_le_len (b : ℚ) :
    (auctionFactor b).1 ≤ 50 * ((auctionFactor b).2.length : ℚ) := by
  unfold auctionFactor; split_ifs <;> norm_num

/-- The information contribution is at most 50 per appended driver. -/
lemma infoFactor_le_len (d : ℚ) :
    (infoFactor d).1 ≤ 50 * ((infoFactor d).2.length : ℚ) := by
  unfold infoFactor; split_ifs <;> norm_num

/-- The cultural contribution is at most 50 per appended driver. -/
lemma cultureFactor_le_len (c : ℚ) :
    (cultureFactor c).1 ≤ 50 * ((cultureFactor c).2.length : ℚ) := by
  unfold cultureFactor; split_ifs <;> norm_num

/-- The auction contribution is non-decreasing in the bidder count. -/
lemma auctionFactor_mono {b b' : ℚ} (h : b ≤ b') :
    (auctionFactor b).1 ≤ (auctionFactor b').1 := by
  unfold auctionFactor; split_ifs <;> norm_num <;> linarith

/-- The information contribution is non-increasing in due-diligence quality. -/
lemma infoFactor_anti {d d' : ℚ} (h : d' ≤ d) :
    (infoFactor d).1 ≤ (infoFactor d').1 := by
  unfold infoFactor; split_ifs <;> norm_num <;> linarith

/-- The cultural contribution is non-increasing in cultural fit. -/
lemma cultureFactor_anti {c c' : ℚ} (h : c' ≤ c) :
    (cultureFactor c).1 ≤ (cultureFactor c').1 := by
  unfold cultureFactor CULTURE_CRITICAL_LIMIT; split_ifs <;> norm_num <;> linarith

/-- The auction block appends no driver exactly below 2 bidders. -/
lemma auctionFactor_empty_iff (b : ℚ) : (auctionFactor b).2 = [] ↔ b < 2 := by
  unfold auctionFactor; split_ifs <;> simp <;> linarith

/-- The information block appends no driver exactly from quality 0.7 up. -/
lemma infoFactor_empty_iff (d : ℚ) : (infoFactor d).2 = [] ↔ 7/10 ≤ d := by
  unfold infoFactor; split_ifs <;> simp <;> linarith

/-- The cultural block appends no driver exactly from fit 0.5 up. -/
lemma cultureFactor_empty_iff (c : ℚ) : (cultureFactor c).2 = [] ↔ 1/2 ≤ c := by
  unfold cultureFactor CULTURE_CRITICAL_LIMIT; split_ifs <;> simp <;> linarith

/-- The score field is the factor sum capped at 100. -/
lemma score_eq (b d c : ℚ) :
    (calculate_risk_score b d c).score =
      min ((auctionFactor b).1 + (infoFactor d).1 + (cultureFactor c).1) 100 := by
  simp only [calculate_risk_score]; split_ifs <;> rfl

/-- The drivers field is the in-order concatenation of the three blocks. -/
lemma drivers_eq (b d c : ℚ) :
    (calculate_risk_score b d c).drivers =
      (auctionFactor b).2 ++ (infoFactor d).2 ++ (cultureFactor c).2 := by
  simp only [calculate_risk_score]; split_ifs <;> rfl

/-- Risk level and recommendation are the threshold bands of the capped score. -/
lemma level_rec_eq (b d c : ℚ) :
    (calculate_risk_score b d c).risk_level =
      (if 75 ≤ (calculate_risk_score b d c).score then "CRITICAL"
       else if 40 ≤ (calculate_risk_score b d c).score then "HIGH" else "LOW") ∧
    (calculate_risk_score b d c).recommendation =
      (if 75 ≤ (calculate_risk_score b d c).score then recWalkAway
       else if 40 ≤ (calculate_risk_score b d c).score then recCaution else recProceed) := by
  simp only [calculate_risk_score, RISK_THRESHOLD_HIGH, RISK_THRESHOLD_MODERATE, ge_iff_le]
  split_ifs <;> simp_all

/-- Evaluation of `recommend_strategy` for regulatory High and a
competition token other than High. -/
lemma rs_high_other (comp : String) (hc : comp ≠ "High") :
    recommend_strategy "High" comp = strategyNegotiatedSettlement := by
  rw [recommend_strategy, if_pos rfl, if_neg hc]

/-- Evaluation of `recommend_strategy` at regulatory Low, competition High. -/
lemma rs_low_high : recommend_strategy "Low" "High" = strategyAggressiveSealedBid := by
  rw [recommend_strategy, if_neg (by decide), if_pos rfl, if_pos rfl]

/-- Evaluation of `recommend_strategy` for regulatory Low and a competition
token other than High. -/
lemma rs_low_other (comp : String) (hc : comp ≠ "High") :
    recommend_strategy "Low" comp = strategyLowBall := by
  rw [recommend_strategy, if_neg (by decide), if_pos rfl, if_neg hc]

/-- Evaluation of `recommend_strategy` for a regulatory token that is
neither High nor Low. -/
lemma rs_err (reg comp : String) (h1 : reg ≠ "High") (h2 : reg ≠ "Low") :
    recommend_strategy reg comp = inputErrorMsg := by
  rw [recommend_strategy, if_neg h1, if_neg h2]

/-- C1 counterexample: the pair (High, Medium) has a second argument outside
the two tokens, yet `recommend_strategy` returns the Negotiated-Settlement
advisory and not the Input-Error result, refuting the claim that an invalid
value of either argument yields the error result. -/
theorem C1_counterexample :
    recommend_strategy "High" "Medium" = strategyNegotiatedSettlement ∧
    recommend_strategy "High" "Medium" ≠ inputErrorMsg := by
  constructor
  · rw [recommend_strategy, if_pos rfl, if_neg (by decide)]
  · rw [recommend_strategy, if_pos rfl, if_neg (by decide)]
    decide

/-- C1 (amended): only the regulatory_risk argument is validated.  Whenever
regulatory_risk is neither the token High nor the token Low,
`recommend_strategy` returns the Input-Error string, which is none of the
four valid advisory strings; an out-of-vocabulary competition_level alone
never triggers the error path. -/
theorem C1_amended_error_on_regulatory (reg comp : String)
    (h1 : reg ≠ "High") (h2 : reg ≠ "Low") :
    recommend_strategy reg comp = inputErrorMsg ∧
    ¬(recommend_strategy reg comp = strategyPreemptiveRemedies ∨
      recommend_strategy reg comp = strategyNegotiatedSettlement ∨
      recommend_strategy reg comp = strategyAggressiveSealedBid ∨
      recommend_strategy reg comp = strategyLowBall) := by
  have he : recommend_strategy reg comp = inputErrorMsg := by
    rw [recommend_strategy, if_neg h1, if_neg h2]
  refine ⟨he, ?_⟩
  rw [he]
  decide

/-- C1 witness: the amended statement instantiated at (Medium, High). -/
theorem C1_witness :
    recommend_strategy "Medium" "High" = inputErrorMsg ∧
    ¬(recommend_strategy "Medium" "High" = strategyPreemptiveRemedies ∨
      recommend_strategy "Medium" "High" = strategyNegotiatedSettlement ∨
      recommend_strategy "Medium" "High" = strategyAggressiveSealedBid ∨
      recommend_strategy "Medium" "High" = strategyLowBall) :=
  C1_amended_error_on_regulatory "Medium" "High" (by decide) (by decide)

/-- C2 counterexample: at (4, 0.5, 0.5) the cultural contribution is not 20
and the score is not 55, refuting the claimed Scenario-A outcome (the
cultural branch requires fit strictly below 0.5, and 0.5 is not). -/
theorem C2_counterexample :
    (cultureFactor (1/2)).1 ≠ 20 ∧ (calculate_risk_score 4 (1/2) (1/2)).score ≠ 55 := by
  constructor <;>
    norm_num [cultureFactor, CULTURE_CRITICAL_LIMIT, calculate_risk_score, auctionFactor,
      infoFactor, RISK_THRESHOLD_HIGH, RISK_THRESHOLD_MODERATE, min_def]

/-- C2 (amended): calculate_risk_score(4, 0.5, 0.5) produces an auction
contribution of 20, an information contribution of 15, and a cultural
contribution of 0 (0.5 is not strictly below the 0.5 threshold), giving
score 35, risk level LOW, the PROCEED recommendation, and exactly 2 driver
strings. -/
theorem C2_amended_scenario_a :
    (auctionFactor 4).1 = 20 ∧ (infoFactor (1/2)).1 = 15 ∧ (cultureFactor (1/2)).1 = 0 ∧
    (calculate_risk_score 4 (1/2) (1/2)).score = 35 ∧
    (calculate_risk_score 4 (1/2) (1/2)).risk_level = "LOW" ∧
    (calculate_risk_score 4 (1/2) (1/2)).recommendation = recProceed ∧
    (calculate_risk_score 4 (1/2) (1/2)).drivers.length = 2 := by
  refine ⟨?_, ?_, ?_, ?_, ?_, ?_, ?_⟩ <;>
    norm_num [auctionFactor, infoFactor, cultureFactor, CULTURE_CRITICAL_LIMIT,
      calculate_risk_score, RISK_THRESHOLD_HIGH, RISK_THRESHOLD_MODERATE, min_def]

/-- C3: for every rational triple of arguments, also outside the documented
ranges, `calculate_risk_score` is a total function whose returned score lies
in [0,100] inclusive (the embedding is a total computable function, matching
the absence of any exception path in the source). -/
theorem C3_score_bounds (b d c : ℚ) :
    0 ≤ (calculate_risk_score b d c).score ∧ (calculate_risk_score b d c).score ≤ 100 := by
  rw [score_eq]
  constructor
  · exact le_min (add_nonneg (add_nonneg (auctionFactor_nonneg b) (infoFactor_nonneg d))
      (cultureFactor_nonneg c)) (by norm_num)
  · exact min_le_right _ _

/-- C4: for every input triple, the score is the clamped factor total, and
the risk level and recommendation are determined from it by inclusive lower
breakpoints: 75 and above gives CRITICAL with the walk-away text, 40 up to
75 gives HIGH with the caution text, and below 40 gives LOW with the
proceed text. -/
theorem C4_level_from_clamped_total (b d c : ℚ) :
    (calculate_risk_score b d c).score =
      min ((auctionFactor b).1 + (infoFactor d).1 + (cultureFactor c).1) 100 ∧
    (calculate_risk_score b d c).risk_level =
      (if 75 ≤ (calculate_risk_score b d c).score then "CRITICAL"
       else if 40 ≤ (calculate_risk_score b d c).score then "HIGH" else "LOW") ∧
    (calculate_risk_score b d c).recommendation =
      (if 75 ≤ (calculate_risk_score b d c).score then recWalkAway
       else if 40 ≤ (calculate_risk_score b d c).score then recCaution else recProceed) :=
  ⟨score_eq b d c, (level_rec_eq b d c).1, (level_rec_eq b d c).2⟩

/-- C5: for every cultural fit in [0,1], the cultural-integration block
contributes 50 with the interpolated critical driver below 0.12, 20 with the
poor-alignment driver from 0.12 up to 0.5, and 0 with no driver from 0.5 up. -/
theorem C5_culture_contribution (cf : ℚ) (h0 : 0 ≤ cf) (h1 : cf ≤ 1) :
    (cf < 12/100 → cultureFactor cf = (50, [cultureCriticalDriver cf])) ∧
    (12/100 ≤ cf → cf < 1/2 → cultureFactor cf =
      (20, ["High Risk: Poor Cultural Alignment suggests synergy leakage."])) ∧
    (1/2 ≤ cf → cultureFactor cf = (0, [])) := by
  unfold cultureFactor CULTURE_CRITICAL_LIMIT
  refine ⟨fun h => ?_, fun ha hb => ?_, fun h => ?_⟩
  · rw [if_pos h]
  · rw [if_neg (not_lt.mpr ha), if_pos hb]
  · rw [if_neg (not_lt.mpr (le_trans (by norm_num) h)), if_neg (not_lt.mpr h)]

/-- C5 witness: the middle band instantiated at fit 0.3. -/
theorem C5_witness :
    cultureFactor (3/10) =
      (20, ["High Risk: Poor Cultural Alignment suggests synergy leakage."]) :=
  (C5_culture_contribution (3/10) (by norm_num) (by norm_num)).2.1 (by norm_num) (by norm_num)

/-- C6: on the four pairs of valid tokens, `recommend_strategy` returns the
fixed advisory string of the matching row of the 2x2 table, the regulatory
token selecting the outer branch before the competition token selects the
inner one. -/
theorem C6_decision_table :
    recommend_strategy "High" "High" = strategyPreemptiveRemedies ∧
    recommend_strategy "High" "Low" = strategyNegotiatedSettlement ∧
    recommend_strategy "Low" "High" = strategyAggressiveSealedBid ∧
    recommend_strategy "Low" "Low" = strategyLowBall := by
  refine ⟨rfl, ?_, ?_, ?_⟩
  · rw [recommend_strategy, if_pos rfl, if_neg (by decide)]
  · rw [recommend_strategy, if_neg (by decide), if_pos rfl, if_pos rfl]
  · rw [recommend_strategy, if_neg (by decide), if_pos rfl, if_neg (by decide)]

/-- C7: holding the other inputs fixed, the returned score is non-decreasing
as the bidder count increases, non-decreasing as due-diligence quality
decreases, and non-decreasing as cultural fit decreases. -/
theorem C7_monotone (b b' d d' c c' : ℚ) :
    (b ≤ b' → (calculate_risk_score b d c).score ≤ (calculate_risk_score b' d c).score) ∧
    (d' ≤ d → (calculate_risk_score b d c).score ≤ (calculate_risk_score b d' c).score) ∧
    (c' ≤ c → (calculate_risk_score b d c).score ≤ (calculate_risk_score b d c').score) := by
  refine ⟨fun h => ?_, fun h => ?_, fun h => ?_⟩
  · rw [score_eq, score_eq]
    exact min_le_min (add_le_add (add_le_add (auctionFactor_mono h) le_rfl) le_rfl) le_rfl
  · rw [score_eq, score_eq]
    exact min_le_min (add_le_add (add_le_add le_rfl (infoFactor_anti h)) le_rfl) le_rfl
  · rw [score_eq, score_eq]
    exact min_le_min (add_le_add le_rfl (cultureFactor_anti h)) le_rfl

/-- C7 witness: the three monotonicity directions at concrete inputs. -/
theorem C7_witness :
    (calculate_risk_score 2 (6/10) (6/10)).score ≤ (calculate_risk_score 7 (6/10) (6/10)).score ∧
    (calculate_risk_score 2 (6/10) (6/10)).score ≤ (calculate_risk_score 2 (2/10) (6/10)).score ∧
    (calculate_risk_score 2 (6/10) (6/10)).score ≤ (calculate_risk_score 2 (6/10) (1/10)).score :=
  ⟨(C7_monotone 2 7 (6/10) (6/10) (6/10) (6/10)).1 (by norm_num),
   (C7_monotone 2 2 (6/10) (2/10) (6/10) (6/10)).2.1 (by norm_num),
   (C7_monotone 2 2 (6/10) (6/10) (6/10) (1/10)).2.2 (by norm_num)⟩

/-- C8: for every input triple, the drivers list is empty exactly when no
factor crosses its risk threshold: fewer than 2 bidders, due-diligence
quality at least 0.7, and cultural fit at least 0.5. -/
theorem C8_drivers_empty_iff (b d c : ℚ) :
    (calculate_risk_score b d c).drivers = [] ↔ (b < 2 ∧ 7/10 ≤ d ∧ 1/2 ≤ c) := by
  rw [drivers_eq]
  simp [List.append_eq_nil, auctionFactor_empty_iff, infoFactor_empty_iff,
    cultureFactor_empty_iff, and_assoc]

/-- C9: for every input triple, a CRITICAL risk level forces at least two
driver strings: every positive contribution appends exactly one driver and
is at most 50, so a capped total of at least 75 needs at least two of them. -/
theorem C9_critical_two_drivers (b d c : ℚ)
    (h : (calculate_risk_score b d c).risk_level = "CRITICAL") :
    2 ≤ (calculate_risk_score b d c).drivers.length := by
  have hl := (level_rec_eq b d c).1
  rw [h] at hl
  by_cases h75 : 75 ≤ (calculate_risk_score b d c).score
  · have hsum : (75:ℚ) ≤ (auctionFactor b).1 + (infoFactor d).1 + (cultureFactor c).1 := by
      have hs := score_eq b d c
      rw [hs] at h75
      exact le_trans h75 (min_le_left _ _)
    have hlen : (calculate_risk_score b d c).drivers.length =
        (auctionFactor b).2.length + (infoFactor d).2.length + (cultureFactor c).2.length := by
      rw [drivers_eq]; simp [Nat.add_assoc]
    have ha := auctionFactor_le_len b
    have hi := infoFactor_le_len d
    have hc := cultureFactor_le_len c
    by_contra hcon
    push_neg at hcon
    have hle : ((calculate_risk_score b d c).drivers.length : ℚ) ≤ 1 := by
      exact_mod_cast Nat.lt_succ_iff.mp hcon
    rw [hlen] at hle
    push_cast at hle
    linarith
  · exfalso
    rw [if_neg h75] at hl
    by_cases h40 : 40 ≤ (calculate_risk_score b d c).score
    · rw [if_pos h40] at hl; exact absurd hl (by decide)
    · rw [if_neg h40] at hl; exact absurd hl (by decide)

/-- C9 witness: Scenario B (8 bidders, quality 0.1, fit 0.05) is CRITICAL
and indeed carries at least two drivers. -/
theorem C9_witness : 2 ≤ (calculate_risk_score 8 (1/10) (1/20)).drivers.length :=
  C9_critical_two_drivers 8 (1/10) (1/20) (by
    norm_num [calculate_risk_score, auctionFactor, infoFactor, cultureFactor,
      RISK_THRESHOLD_HIGH, RISK_THRESHOLD_MODERATE, CULTURE_CRITICAL_LIMIT, min_def])

/-- C10: for every string pair, a regulatory token High or Low always yields
one of the four valid advisory strings; any competition token other than
High behaves exactly like Low; and the Input-Error result is returned
precisely when the regulatory token is neither High nor Low. -/
theorem C10_regulatory_only (reg comp : String) :
    ((reg = "High" ∨ reg = "Low") →
      (recommend_strategy reg comp = strategyPreemptiveRemedies ∨
       recommend_strategy reg comp = strategyNegotiatedSettlement ∨
       recommend_strategy reg comp = strategyAggressiveSealedBid ∨
       recommend_strategy reg comp = strategyLowBall)) ∧
    (comp ≠ "High" → recommend_strategy reg comp = recommend_strategy reg "Low") ∧
    (recommend_strategy reg comp = inputErrorMsg ↔ (reg ≠ "High" ∧ reg ≠ "Low")) := by
  by_cases hr : reg = "High"
  · subst hr
    by_cases hc : comp = "High"
    · subst hc
      refine ⟨fun _ => Or.inl rfl, fun h => absurd rfl h, ?_⟩
      rw [recommend_strategy, if_pos rfl, if_pos rfl]
      exact iff_of_false (by decide) (fun h => h.1 rfl)
    · rw [rs_high_other comp hc, rs_high_other "Low" (by decide)]
      refine ⟨fun _ => Or.inr (Or.inl rfl), fun _ => rfl, ?_⟩
      exact iff_of_false (by decide) (fun h => h.1 rfl)
  · by_cases hl : reg = "Low"
    · subst hl
      by_cases hc : comp = "High"
      · subst hc
        rw [rs_low_high]
        refine ⟨fun _ => Or.inr (Or.inr (Or.inl rfl)), fun h => absurd rfl h, ?_⟩
        exact iff_of_false (by decide) (fun h => h.2 rfl)
      · rw [rs_low_other comp hc, rs_low_other "Low" (by decide)]
        refine ⟨fun _ => Or.inr (Or.inr (Or.inr rfl)), fun _ => rfl, ?_⟩
        exact iff_of_false (by decide) (fun h => h.2 rfl)
    · rw [rs_err reg comp hr hl, rs_err reg "Low" hr hl]
      refine ⟨fun h => ?_, fun _ => rfl, iff_of_true rfl ⟨hr, hl⟩⟩
      rcases h with h | h
      · exact absurd h hr
      · exact absurd h hl

/-- C10 witness: (High, Medium) yields a valid advisory and behaves like
(High, Low), while (Medium, High) yields the Input-Error result. -/
theorem C10_witness :
    (recommend_strategy "High" "Medium" = strategyPreemptiveRemedies ∨
     recommend_strategy "High" "Medium" = strategyNegotiatedSettlement ∨
     recommend_strategy "High" "Medium" = strategyAggressiveSealedBid ∨
     recommend_strategy "High" "Medium" = strategyLowBall) ∧
    recommend_strategy "High" "Medium" = recommend_strategy "High" "Low" ∧
    recommend_strategy "Medium" "High" = inputErrorMsg :=
  ⟨(C10_regulatory_only "High" "Medium").1 (Or.inl rfl),
   (C10_regulatory_only "High" "Medium").2.1 (by decide),
   (C10_regulatory_only "Medium" "High").2.2.mpr (by decide)⟩

end DealAnalyzer
